import Mathlib

/-!
Shallow embedding of the voice dispatch and pitch-scaling engine of
`src/js/guitarompler.js` (the "guitarompler" sample-based instrument).

The embedding models:
* MIDI-like performance messages (`guitarompler.note.handleMessage`'s input),
* a Voice's observable state (`isPlaying`, the gain node's value, the
  buffer-source bookkeeping of `startPlaying` / `stopPlaying`),
* the numeric laws `guitarompler.note.gainFromVelocity` and
  `guitarompler.note.speedFromOffset`,
* the loom's pitch table (`destinationByNote`, `wireDestinations`,
  `sendToDestination`) together with the six note families configured in
  the source.

JavaScript peculiarities that matter and are modelled explicitly:
* `midiMessage.velocity | midiMessage.pressure` is the JS *bitwise* or:
  each operand goes through ToInt32 (`undefined` becomes 0), the 32-bit
  patterns are or-ed, and the result is read back as a signed 32-bit
  integer (`toInt32` / `jsBitOr` below).
* `midiMessage.velocity === 0` is strict equality: an absent field
  (`undefined`) does not compare equal to 0.
* `midiMessage.velocity > 0` is false when the field is absent
  (`undefined > 0` is false in JS), captured by `jsGtZero`.
* In `handleMessage` the `|` between the two boolean conditions coerces
  `true`/`false` to 1/0 and ors them, which on booleans coincides with
  logical or; it is modelled as a disjunction.
-/

namespace Guitarompler

/-- ToInt32 of an integer-valued JS number: reduce mod 2^32 and read the
result as a signed 32-bit value. -/
def toInt32 (n : Int) : Int :=
  let m := n % 4294967296
  if m < 2147483648 then m else m - 4294967296

/-- The JS bitwise-or `a | b` on integer-valued numbers: ToInt32 each
operand, or the 32-bit patterns, reinterpret as signed. -/
def jsBitOr (a b : Int) : Int :=
  toInt32 (Int.ofNat ((a % 4294967296).toNat ||| (b % 4294967296).toNat))

/-- `midiMessage.velocity | midiMessage.pressure`: an absent field is
`undefined`, which ToInt32 sends to 0. -/
def jsOrOpt (a b : Option Int) : Int :=
  jsBitOr (a.getD 0) (b.getD 0)

/-- `midiMessage.velocity > 0` in JS: false when the field is absent. -/
def jsGtZero (a : Option Int) : Bool :=
  match a with
  | some v => decide (0 < v)
  | none => false

/-- The message types the loom forwards; `other` stands for any other
string the transport might deliver. -/
inductive MessageType where
  | noteOn
  | noteOff
  | aftertouch
  | other
deriving DecidableEq, Repr

/-- A performance message as consumed by `guitarompler.note.handleMessage`:
`note` is the pitch field; `velocity` is present on note on/off messages,
`pressure` on aftertouch messages; an absent field is `none`. -/
structure MidiMessage where
  type : MessageType
  note : Int
  velocity : Option Int
  pressure : Option Int
deriving DecidableEq, Repr

/-- The options of a `guitarompler.note` component that the message
handlers read: `basePitch`, `offset` and the pre-computed `speed`. -/
structure NoteOptions where
  basePitch : Int
  offset : Int
  speed : ℝ

/-- `pitch: "@expand:fluid.add({that}.options.basePitch, {that}.options.offset)"` -/
def NoteOptions.pitch (o : NoteOptions) : Int :=
  o.basePitch + o.offset

/-- The observable state of one Voice: the `isPlaying` member, the gain
node's current value, whether a buffer source exists (`that.source` is
truthy), the playback rate set on the current source, and counters for
the `createBufferSource`, `source.start` and `source.stop` calls issued
so far (these counters record the call history; the JS object does not
store them, but every claim about "no new start call" is a statement
about them). -/
structure NoteState where
  isPlaying : Bool
  gain : ℚ
  hasSource : Bool
  playbackRate : Option ℝ
  sourceCount : Nat
  startCount : Nat
  stopCount : Nat

/-- A fresh Voice: members `isPlaying`/`source` start false, and a
`createGain` node's gain value defaults to 1. -/
def initNoteState : NoteState :=
  { isPlaying := false
    gain := 1
    hasSource := false
    playbackRate := none
    sourceCount := 0
    startCount := 0
    stopCount := 0 }

/-- `guitarompler.note.gainFromVelocity`: `velocity / 128`. -/
def gainFromVelocity (velocity : ℚ) : ℚ :=
  velocity / 128

/-- `guitarompler.note.speedFromOffset`: `Math.pow(2, offset / 12)`. -/
noncomputable def speedFromOffset (offset : Int) : ℝ :=
  (2 : ℝ) ^ ((offset : ℝ) / 12)

/-- `guitarompler.note.stopPlaying`: if a source exists, stop it and
clear `isPlaying`; otherwise do nothing. -/
def stopPlaying (s : NoteState) : NoteState :=
  if s.hasSource = true then
    { s with stopCount := s.stopCount + 1, isPlaying := false }
  else s

/-- `guitarompler.note.startPlaying`: compute
`velocity = midiMessage.velocity | midiMessage.pressure`; if already
playing with positive velocity, only update the gain; otherwise stop any
current source, set the gain, create and wire a fresh buffer source at
`options.speed`, start it, and mark the Voice as playing. -/
def startPlaying (opts : NoteOptions) (s : NoteState) (m : MidiMessage) : NoteState :=
  let velocity : Int := jsOrOpt m.velocity m.pressure
  if s.isPlaying = true ∧ 0 < velocity then
    { s with gain := gainFromVelocity (velocity : ℚ) }
  else
    let s1 := if s.isPlaying = true then stopPlaying s else s
    { s1 with
        gain := gainFromVelocity (velocity : ℚ)
        sourceCount := s1.sourceCount + 1
        hasSource := true
        playbackRate := some opts.speed
        startCount := s1.startCount + 1
        isPlaying := true }

/-- `guitarompler.note.handleMessage`: react only to the Voice's own
pitch; stop on a noteOff or a strict-zero velocity while playing; start
(or modulate) on an aftertouch, or a noteOn with positive velocity. -/
def handleMessage (opts : NoteOptions) (s : NoteState) (m : MidiMessage) : NoteState :=
  if m.note = opts.pitch then
    if (m.type = MessageType.noteOff ∨ m.velocity = some 0) ∧ s.isPlaying = true then
      stopPlaying s
    else if m.type = MessageType.aftertouch ∨
        (m.type = MessageType.noteOn ∧ jsGtZero m.velocity = true) then
      startPlaying opts s m
    else s
  else s

/-- Identifies one Voice component by the pair of options the loom reads
back from it in `wireDestinations` (`basePitch` and `offset`). -/
structure VoiceRef where
  basePitch : Int
  offset : Int
deriving DecidableEq, Repr

/-- One note family as configured by its `fluid.defaults` block: a base
pitch and the list of offsets of its `noteSources`. -/
structure FamilyConfig where
  basePitch : Int
  offsets : List Int
deriving DecidableEq, Repr

/-- All note components spawned by the given families, one per
configured offset (`dynamicComponents` of `guitarompler.noteHolder`). -/
def allNotes (fams : List FamilyConfig) : List VoiceRef :=
  (fams.map fun f => f.offsets.map fun o => VoiceRef.mk f.basePitch o).flatten

/-- `guitarompler.loom.wireDestinations`: start from
`fluid.generate(128, false)` and, for every note component, write it at
index `basePitch + offset`; a later write over the same pitch overwrites
an earlier one.  All configured pitches in this file lie in 0..127, so
JS array assignment is `List.set`. -/
def wireDestinations (fams : List FamilyConfig) : List (Option VoiceRef) :=
  (allNotes fams).foldl
    (fun tbl v => tbl.set (v.basePitch + v.offset).toNat (some v))
    (List.replicate 128 (none : Option VoiceRef))

/-- `fluid.get(that, ["destinationByNote", note])`: a negative or
out-of-range index reads `undefined` (here `none`). -/
def tableGet (tbl : List (Option VoiceRef)) (note : Int) : Option VoiceRef :=
  if note < 0 then none else tbl.getD note.toNat none

/-- The options a Voice referenced by the table was constructed with:
the noteHolder passes `basePitch`, `offset` and
`speed: @expand:guitarompler.note.speedFromOffset(offset)`. -/
noncomputable def optsOfRef (v : VoiceRef) : NoteOptions :=
  { basePitch := v.basePitch, offset := v.offset, speed := speedFromOffset v.offset }

/-- The loom's observable state: the wired `destinationByNote` table and
the state of every Voice. -/
structure LoomState where
  table : List (Option VoiceRef)
  states : VoiceRef → NoteState

/-- `guitarompler.loom.sendToDestination`: forward note on/off and
aftertouch messages to the Voice registered at `message.note`, if any;
anything else is dropped. -/
noncomputable def sendToDestination (ls : LoomState) (m : MidiMessage) : LoomState :=
  if m.type = MessageType.noteOn ∨ m.type = MessageType.noteOff ∨
      m.type = MessageType.aftertouch then
    match tableGet ls.table m.note with
    | some v =>
        { ls with
            states := Function.update ls.states v
              (handleMessage (optsOfRef v) (ls.states v) m) }
    | none => ls
  else ls

/-- The default `noteSources` of `guitarompler.noteHolder` (offsets
-6..10 as literally listed in the source). -/
def defaultNoteSources : List Int :=
  [-6, -5, -4, -3, -2, -1, 0, 1, 2, 3, 4, 5, 6, 7, 8, 9, 10]

/-- The `noteSources` override of `guitarompler.220NoteFamily`
(offsets -21..5). -/
def family220Offsets : List Int :=
  [-21, -20, -19, -18, -17, -16, -15, -14, -13, -12, -11, -10, -9, -8,
   -7, -6, -5, -4, -3, -2, -1, 0, 1, 2, 3, 4, 5]

/-- The `noteSources` override of `guitarompler.7040NoteFamily`
(offsets -6..10). -/
def family7040Offsets : List Int :=
  [-6, -5, -4, -3, -2, -1, 0, 1, 2, 3, 4, 5, 6, 7, 8, 9, 10]

/-- The six families the `guitarompler.loom` configures: base pitches
57, 69, 81, 93, 105, 117; the 220 family overrides its offsets to
-21..5, the 7040 family lists -6..10 explicitly, the rest inherit the
noteHolder default -6..10. -/
def loomFamilies : List FamilyConfig :=
  [⟨57, family220Offsets⟩,
   ⟨69, defaultNoteSources⟩,
   ⟨81, defaultNoteSources⟩,
   ⟨93, defaultNoteSources⟩,
   ⟨105, defaultNoteSources⟩,
   ⟨117, family7040Offsets⟩]

/-- Family A of the spec's two-family overlap scenario: basePitch 57,
offsets [-6..5]. -/
def familyA : FamilyConfig :=
  ⟨57, [-6, -5, -4, -3, -2, -1, 0, 1, 2, 3, 4, 5]⟩

/-- Family B of the spec's two-family overlap scenario: basePitch 69,
offsets [-6..5]. -/
def familyB : FamilyConfig :=
  ⟨69, [-6, -5, -4, -3, -2, -1, 0, 1, 2, 3, 4, 5]⟩

/-- The wired table of the two-family scenario. -/
def scenarioTable : List (Option VoiceRef) :=
  wireDestinations [familyA, familyB]

/-! ### Concrete fixtures used by witnesses and counterexamples -/

/-- A Voice with target pitch 60 (basePitch 57, offset 3); the speed
value is irrelevant to the message-handling claims. -/
def opts60 : NoteOptions := { basePitch := 57, offset := 3, speed := 1 }

/-- NoteOn for pitch 60, velocity 64. -/
def mOn64 : MidiMessage := ⟨MessageType.noteOn, 60, some 64, none⟩

/-- A second NoteOn for pitch 60, velocity 80. -/
def mOn80 : MidiMessage := ⟨MessageType.noteOn, 60, some 80, none⟩

/-- Aftertouch for pitch 60 with pressure 0 (aftertouch messages carry
`pressure`, not `velocity`). -/
def mAft0 : MidiMessage := ⟨MessageType.aftertouch, 60, none, some 0⟩

/-- Aftertouch for pitch 60 with pressure 32. -/
def mAft32 : MidiMessage := ⟨MessageType.aftertouch, 60, none, some 32⟩

/-- The Voice for pitch 60 after one NoteOn with velocity 64: a
Sounding state reached by the code itself. -/
def sAfterOn : NoteState := handleMessage opts60 initNoteState mOn64

/-- A loom whose table was never wired: every slot still holds the
initial `false`/`none`, and every Voice is fresh. -/
def emptyLoom : LoomState :=
  { table := List.replicate 128 none, states := fun _ => initNoteState }

/-! ### Helper lemmas about the JS bitwise-or -/

theorem jsBitOr_right_zero (v : Int) (h0 : 0 ≤ v) (h1 : v < 2147483648) :
    jsBitOr v 0 = v := by
  have hm : v % 4294967296 = v := Int.emod_eq_of_lt h0 (by omega)
  simp [jsBitOr, toInt32, hm, Int.toNat_of_nonneg h0, h1]

theorem jsBitOr_left_zero (v : Int) (h0 : 0 ≤ v) (h1 : v < 2147483648) :
    jsBitOr 0 v = v := by
  have hm : v % 4294967296 = v := Int.emod_eq_of_lt h0 (by omega)
  simp [jsBitOr, toInt32, hm, Int.toNat_of_nonneg h0, h1]

theorem jsOrOpt_velocity (v : Int) (h0 : 0 ≤ v) (h1 : v < 2147483648) :
    jsOrOpt (some v) none = v := by
  simpa [jsOrOpt] using jsBitOr_right_zero v h0 h1

theorem jsOrOpt_pressure (p : Int) (h0 : 0 ≤ p) (h1 : p < 2147483648) :
    jsOrOpt none (some p) = p := by
  simpa [jsOrOpt] using jsBitOr_left_zero p h0 h1

/-! ### Claim theorems -/

/-- C1: for every Voice in the Sounding state (`isPlaying` true),
handling an Aftertouch message, or a repeated NoteOn message, addressed
to its own pitch with velocity/pressure > 0 sets the Voice's gain to the
new velocity/pressure divided by 128 and does not restart playback: no
new source is created and no start call is issued, and the Voice stays
Sounding. -/
theorem sounding_gain_update_in_place (opts : NoteOptions) (s : NoteState)
    (m : MidiMessage) (v : Int)
    (hplay : s.isPlaying = true)
    (hnote : m.note = opts.pitch)
    (hv0 : 0 < v) (hv1 : v ≤ 127)
    (hshape :
      (m.type = MessageType.aftertouch ∧ m.velocity = none ∧ m.pressure = some v) ∨
      (m.type = MessageType.noteOn ∧ m.velocity = some v ∧ m.pressure = none)) :
    handleMessage opts s m = { s with gain := (v : ℚ) / 128 } ∧
    (handleMessage opts s m).sourceCount = s.sourceCount ∧
    (handleMessage opts s m).startCount = s.startCount ∧
    (handleMessage opts s m).isPlaying = true := by
  have hmain : handleMessage opts s m = { s with gain := (v : ℚ) / 128 } := by
    rcases hshape with ⟨ht, hvel, hpr⟩ | ⟨ht, hvel, hpr⟩
    · have hor : jsOrOpt none (some v) = v :=
        jsOrOpt_pressure v (le_of_lt hv0) (by omega)
      simp [handleMessage, startPlaying, hnote, ht, hvel, hpr, hplay, hor, hv0,
        gainFromVelocity]
    · have hor : jsOrOpt (some v) none = v :=
        jsOrOpt_velocity v (le_of_lt hv0) (by omega)
      simp [handleMessage, startPlaying, jsGtZero, hnote, ht, hvel, hpr, hplay,
        hor, hv0, hv0.ne', gainFromVelocity]
  exact ⟨hmain, by rw [hmain], by rw [hmain], by rw [hmain]; exact hplay⟩

/-- Witness for C1: the Voice for pitch 60, Sounding after NoteOn with
velocity 64, receives Aftertouch with pressure 32: the gain becomes
32/128 and no new source or start call is issued. -/
theorem sounding_gain_update_in_place_witness :
    handleMessage opts60 sAfterOn mAft32 = { sAfterOn with gain := ((32 : Int) : ℚ) / 128 } ∧
    (handleMessage opts60 sAfterOn mAft32).sourceCount = sAfterOn.sourceCount ∧
    (handleMessage opts60 sAfterOn mAft32).startCount = sAfterOn.startCount ∧
    (handleMessage opts60 sAfterOn mAft32).isPlaying = true :=
  sounding_gain_update_in_place opts60 sAfterOn mAft32 32 (by decide) (by decide)
    (by decide) (by decide) (Or.inl ⟨rfl, rfl, rfl⟩)

/-- C2 counterexample: the Voice for pitch 60 is Sounding after a
NoteOn; an Aftertouch for its own pitch with pressure 0 does NOT leave
it Idle: the Voice ends with `isPlaying = true`, and a fresh source and
start call were issued (the pressure-0 aftertouch slips past the stop
branch, which tests `velocity === 0` on a message that has no velocity
field, and restarts playback at gain 0). -/
theorem aftertouch_zero_pressure_counterexample :
    sAfterOn.isPlaying = true ∧
    mAft0.type = MessageType.aftertouch ∧ mAft0.pressure = some 0 ∧
    mAft0.note = opts60.pitch ∧
    (handleMessage opts60 sAfterOn mAft0).isPlaying = true ∧
    (handleMessage opts60 sAfterOn mAft0).startCount = sAfterOn.startCount + 1 ∧
    (handleMessage opts60 sAfterOn mAft0).gain = 0 :=
  ⟨by decide, rfl, rfl, by decide, by decide, by decide,
   by
     norm_num [handleMessage, startPlaying, stopPlaying, sAfterOn, initNoteState,
       opts60, mOn64, mAft0, NoteOptions.pitch, jsGtZero, jsOrOpt, jsBitOr, toInt32,
       gainFromVelocity]
     rfl⟩

/-- C2 amended: for every Voice in the Sounding state with a live
source, handling a NoteOff for its own pitch, or a NoteOn for its own
pitch with velocity exactly 0 (the protocol's velocity domain is
0..127, so "velocity ≤ 0" means 0), stops sound output and transitions
the Voice to Idle; an Aftertouch with pressure 0, however, stops the
current source and immediately restarts playback with gain 0, leaving
the Voice Sounding rather than Idle. -/
theorem sounding_stop_transitions_amended (opts : NoteOptions) (s : NoteState)
    (m : MidiMessage)
    (hplay : s.isPlaying = true) (hsrc : s.hasSource = true)
    (hnote : m.note = opts.pitch) :
    (m.type = MessageType.noteOff →
      handleMessage opts s m =
        { s with isPlaying := false, stopCount := s.stopCount + 1 }) ∧
    (m.type = MessageType.noteOn → m.velocity = some 0 →
      handleMessage opts s m =
        { s with isPlaying := false, stopCount := s.stopCount + 1 }) ∧
    (m.type = MessageType.aftertouch → m.velocity = none → m.pressure = some 0 →
      handleMessage opts s m =
        { s with gain := 0, hasSource := true,
                 playbackRate := some opts.speed,
                 sourceCount := s.sourceCount + 1,
                 startCount := s.startCount + 1,
                 stopCount := s.stopCount + 1,
                 isPlaying := true }) := by
  refine ⟨fun ht => ?_, fun ht hvel => ?_, fun ht hvel hpr => ?_⟩
  · simp [handleMessage, stopPlaying, hnote, ht, hplay, hsrc]
  · simp [handleMessage, stopPlaying, hnote, ht, hvel, hplay, hsrc]
  · have hor : jsOrOpt none (some 0) = 0 := jsOrOpt_pressure 0 le_rfl (by omega)
    simp [handleMessage, startPlaying, stopPlaying, hnote, ht, hvel, hpr, hplay,
      hsrc, hor, gainFromVelocity]

/-- Witness for the amended C2: the Sounding Voice for pitch 60
receives NoteOff and ends Idle with one stop call recorded. -/
theorem sounding_stop_transitions_amended_witness :
    handleMessage opts60 sAfterOn ⟨MessageType.noteOff, 60, some 64, none⟩ =
      { sAfterOn with isPlaying := false, stopCount := sAfterOn.stopCount + 1 } :=
  (sounding_stop_transitions_amended opts60 sAfterOn
      ⟨MessageType.noteOff, 60, some 64, none⟩
      (by decide) (by decide) (by decide)).1 rfl

/-- C3 counterexample: after NoteOn(60, vel 64) the Voice is Sounding
with one start call and no stop call; a second NoteOn(60, vel 80) with
no intervening NoteOff leaves the counts unchanged — the code performs
zero stops and zero restarts (it only updates the gain), not the
claimed "exactly one stop followed by exactly one restart". -/
theorem repeated_noteOn_counterexample :
    sAfterOn.isPlaying = true ∧
    sAfterOn.startCount = 1 ∧ sAfterOn.stopCount = 0 ∧
    (handleMessage opts60 sAfterOn mOn80).stopCount = 0 ∧
    (handleMessage opts60 sAfterOn mOn80).startCount = 1 ∧
    (handleMessage opts60 sAfterOn mOn80).sourceCount = 1 :=
  ⟨by decide, by decide, by decide, by decide, by decide, by decide⟩

/-- C3 amended: for every Voice, handling a NoteOn with velocity > 0
for its own pitch while already Sounding from a previous NoteOn (no
intervening NoteOff) performs no stop and no restart at all: it only
updates the gain to the new velocity / 128, so at no point are two
concurrent outputs stacked (the single original output keeps playing). -/
theorem repeated_noteOn_amended (opts : NoteOptions) (s : NoteState)
    (m : MidiMessage) (v : Int)
    (hplay : s.isPlaying = true)
    (hnote : m.note = opts.pitch)
    (ht : m.type = MessageType.noteOn)
    (hvel : m.velocity = some v) (hpr : m.pressure = none)
    (hv0 : 0 < v) (hv1 : v ≤ 127) :
    handleMessage opts s m = { s with gain := (v : ℚ) / 128 } ∧
    (handleMessage opts s m).stopCount = s.stopCount ∧
    (handleMessage opts s m).startCount = s.startCount ∧
    (handleMessage opts s m).sourceCount = s.sourceCount := by
  have hor : jsOrOpt (some v) none = v :=
    jsOrOpt_velocity v (le_of_lt hv0) (by omega)
  have hmain : handleMessage opts s m = { s with gain := (v : ℚ) / 128 } := by
    simp [handleMessage, startPlaying, jsGtZero, hnote, ht, hvel, hpr, hplay,
      hor, hv0, hv0.ne', gainFromVelocity]
  exact ⟨hmain, by rw [hmain], by rw [hmain], by rw [hmain]⟩

/-- Witness for the amended C3: the second NoteOn(60, vel 80) only
moves the gain to 80/128. -/
theorem repeated_noteOn_amended_witness :
    handleMessage opts60 sAfterOn mOn80 = { sAfterOn with gain := ((80 : Int) : ℚ) / 128 } ∧
    (handleMessage opts60 sAfterOn mOn80).stopCount = sAfterOn.stopCount ∧
    (handleMessage opts60 sAfterOn mOn80).startCount = sAfterOn.startCount ∧
    (handleMessage opts60 sAfterOn mOn80).sourceCount = sAfterOn.sourceCount :=
  repeated_noteOn_amended opts60 sAfterOn mOn80 80 (by decide) (by decide) rfl rfl
    rfl (by decide) (by decide)

/-- C5: for every integer offset `o`, the speed computed for a Voice at
offset `o` equals `2^(o/12)` (exactly, in the real-number model of the
floating-point computation), and for offset 0 the speed is exactly 1. -/
theorem speedFromOffset_pow_law :
    (∀ o : Int, speedFromOffset o = (2 : ℝ) ^ ((o : ℝ) / 12)) ∧
    speedFromOffset 0 = 1 := by
  refine ⟨fun o => rfl, ?_⟩
  norm_num [speedFromOffset]

/-- C6: for every velocity `v` in [0,128], the gain computed from `v`
equals `v/128`, and the gain function is monotonically non-decreasing. -/
theorem gainFromVelocity_law (v w : ℚ) (h0 : 0 ≤ v) (h128 : v ≤ 128)
    (hvw : v ≤ w) :
    gainFromVelocity v = v / 128 ∧
    gainFromVelocity v ≤ gainFromVelocity w := by
  refine ⟨rfl, ?_⟩
  unfold gainFromVelocity
  linarith

/-- Witness for C6 at v = 64, w = 100. -/
theorem gainFromVelocity_law_witness :
    gainFromVelocity 64 = 64 / 128 ∧
    gainFromVelocity 64 ≤ gainFromVelocity 100 :=
  gainFromVelocity_law 64 100 (by norm_num) (by norm_num) (by norm_num)

/-- C8: for every Voice and every performance message whose pitch
differs from the Voice's own target pitch (`basePitch + offset`),
handling the message leaves the entire Voice state unchanged. -/
theorem other_pitch_ignored (opts : NoteOptions) (s : NoteState)
    (m : MidiMessage) (h : m.note ≠ opts.pitch) :
    handleMessage opts s m = s := by
  simp [handleMessage, h]

/-- Witness for C8: a NoteOn for pitch 61 leaves the pitch-60 Voice's
fresh state untouched. -/
theorem other_pitch_ignored_witness :
    handleMessage opts60 initNoteState ⟨MessageType.noteOn, 61, some 64, none⟩ =
      initNoteState :=
  other_pitch_ignored opts60 initNoteState _ (by decide)

/-- C10: for every Voice in the Idle state (`isPlaying` false), handling
an Aftertouch message for its own pitch with pressure > 0 starts
playback: a new source is created, output begins at the Voice's
configured speed with gain pressure/128, and the Voice transitions to
Sounding. -/
theorem idle_aftertouch_starts_playback (opts : NoteOptions) (s : NoteState)
    (m : MidiMessage) (p : Int)
    (hplay : s.isPlaying = false)
    (hnote : m.note = opts.pitch)
    (ht : m.type = MessageType.aftertouch)
    (hvel : m.velocity = none) (hpr : m.pressure = some p)
    (hp0 : 0 < p) (hp1 : p ≤ 127) :
    handleMessage opts s m =
      { s with gain := (p : ℚ) / 128,
               hasSource := true,
               playbackRate := some opts.speed,
               sourceCount := s.sourceCount + 1,
               startCount := s.startCount + 1,
               isPlaying := true } := by
  have hor : jsOrOpt none (some p) = p :=
    jsOrOpt_pressure p (le_of_lt hp0) (by omega)
  simp [handleMessage, startPlaying, hnote, ht, hvel, hpr, hplay, hor,
    gainFromVelocity]

/-- Witness for C10: a fresh pitch-60 Voice receiving Aftertouch with
pressure 32 starts playing at gain 32/128 and the configured speed. -/
theorem idle_aftertouch_starts_playback_witness :
    handleMessage opts60 initNoteState mAft32 =
      { initNoteState with gain := ((32 : Int) : ℚ) / 128,
                           hasSource := true,
                           playbackRate := some opts60.speed,
                           sourceCount := initNoteState.sourceCount + 1,
                           startCount := initNoteState.startCount + 1,
                           isPlaying := true } :=
  idle_aftertouch_starts_playback opts60 initNoteState mAft32 32 rfl (by decide)
    rfl rfl rfl (by decide) (by decide)

/-- C7: for every performance message whose pitch has no registered
Voice in the loom's `destinationByNote` table, routing the message
leaves the loom state — the table and every Voice's state — exactly
unchanged (the message is silently dropped). -/
theorem route_unmapped_pitch_noop (ls : LoomState) (m : MidiMessage)
    (h : tableGet ls.table m.note = none) :
    sendToDestination ls m = ls := by
  unfold sendToDestination
  split
  · rw [h]
  · rfl

/-- Witness for C7: routing NoteOn(60) through a loom whose table was
never wired changes nothing. -/
theorem route_unmapped_pitch_noop_witness :
    sendToDestination emptyLoom mOn64 = emptyLoom :=
  route_unmapped_pitch_noop emptyLoom mOn64 (by decide)

/-- C9: with the six families the loom configures, the wired
`destinationByNote` table holds a Voice exactly at pitches 36..127: the
first 36 slots (pitches 0..35) stay empty and the remaining 92 slots
(pitches 36..127) are all populated. -/
theorem loom_table_covers_36_to_127 :
    (wireDestinations loomFamilies).map Option.isSome =
      List.replicate 36 false ++ List.replicate 92 true ∧
    ∀ n : Fin 128,
      (tableGet (wireDestinations loomFamilies) (n : Int)).isSome = true ↔
        36 ≤ (n : ℕ) := by
  constructor
  · decide
  · decide

/-- C4 counterexample: in the spec's two-family scenario (Family A
basePitch 57, Family B basePitch 69, offsets [-6..5] each) the table
entry for pitch 63 is Family B's Voice at offset -6, not Family A's
Voice at offset +6 — offset +6 is not even in Family A's configured
range, so 57 + 6 = 63 is produced by no Voice of Family A. -/
theorem scenario_pitch63_counterexample :
    tableGet scenarioTable 63 = some ⟨69, -6⟩ ∧
    tableGet scenarioTable 63 ≠ some ⟨57, 6⟩ ∧
    (familyA.offsets.contains 6) = false :=
  ⟨by decide, by decide, by decide⟩

/-- C4 amended: in the two-family overlap scenario, after both families
report ready the table entry for pitch 63 is Family B's Voice at offset
-6 with speed 2^(-6/12) ≈ 0.707 (in particular a speed below 1, a
slow-down, not the claimed 2^(6/12) ≈ 1.414), and pitch 63 does not
fall in Family A's populated range: no offset of Family A reaches
pitch 63. -/
theorem scenario_pitch63_amended :
    tableGet scenarioTable 63 = some ⟨69, -6⟩ ∧
    speedFromOffset (-6) = (2 : ℝ) ^ (((-6 : Int) : ℝ) / 12) ∧
    speedFromOffset (-6) < 1 ∧
    (familyA.offsets.all fun o => decide (familyA.basePitch + o ≠ 63)) = true := by
  refine ⟨by decide, rfl, ?_, by decide⟩
  have : ((-6 : Int) : ℝ) / 12 < 0 := by norm_num
  exact Real.rpow_lt_one_of_one_lt_of_neg (by norm_num) this

end Guitarompler

